import Mathlib

/-
Verification of the Amber Restart codec (src/formats/AmberRestart.cpp) of the
chemfiles library.  The codec itself is translated directly from the C++
source.  The generic NetCDF-style container (NcFile), the Frame and the
UnitCell live outside the provided sources, so they are modelled from the
specification of their interfaces (spec sections 3, 4.1 and 6).  Numeric
values are represented by rationals, so unit scaling and round trips are
exact.
-/

namespace Chemfiles

/-- Error taxonomy used by the codec and its container, following the throw
sites in AmberRestart.cpp and the container interface description. -/
inductive ChemErr where
  | formatError (msg : String)
  | lookupError (msg : String)
  | boundsError (msg : String)
  deriving DecidableEq

/-- Element types of the container variables used by this format. -/
inductive NcType where
  | NcDouble
  | NcChar
  deriving DecidableEq

/-- Modelled from the spec: a container variable carries an element type, the
ordered list of its dimension names together with their sizes (fixed at
declaration time), per-variable string and numeric attributes, and a raw data
buffer (numeric data for NcDouble variables, text for NcChar variables). -/
structure NcVariable where
  type : NcType
  dimNames : List String
  shape : List Nat
  strAttrs : List (String × String)
  floatAttrs : List (String × ℚ)
  ddata : List ℚ
  cdata : List String
  deriving DecidableEq

/-- Modelled from the spec: the two-phase mutation protocol of the container. -/
inductive NcMode where
  | DEFINE
  | DATA
  deriving DecidableEq

/-- Modelled from the spec: the generic store of named fixed-size dimensions,
named typed variables and global string attributes (the NcFile container). -/
structure NcFile where
  mode : NcMode
  dims : List (String × Nat)
  vars : List (String × NcVariable)
  gattrs : List (String × String)
  deriving DecidableEq

/-- Association-list lookup on string keys, first match wins. -/
def alookup {α : Type} : List (String × α) → String → Option α
  | [], _ => none
  | (k, v) :: rest, key => if k = key then some v else alookup rest key

/-- Replace the value bound to a key in an association list, keeping order. -/
def aupdate {α : Type} (l : List (String × α)) (key : String) (v : α) : List (String × α) :=
  l.map (fun p => if p.1 = key then (key, v) else p)

/-- A freshly created container: definition phase, no schema, no data. -/
def NcFile.empty : NcFile := ⟨.DEFINE, [], [], []⟩

/-- Modelled from the spec: global_attribute(name) returns the string or absent. -/
def NcFile.global_attribute (f : NcFile) (name : String) : Option String :=
  alookup f.gattrs name

/-- Size of a dimension, when it exists. -/
def NcFile.dimlookup (f : NcFile) (name : String) : Option Nat :=
  alookup f.dims name

/-- Modelled from the spec: dimension(name) fails with a lookup error when the
dimension does not exist. -/
def NcFile.dimension (f : NcFile) (name : String) : Except ChemErr Nat :=
  match f.dimlookup name with
  | some n => .ok n
  | none => .error (.lookupError ("missing dimension " ++ name))

/-- Modelled from the spec: optional_dimension(name, default) returns the
default when the dimension does not exist. -/
def NcFile.optional_dimension (f : NcFile) (name : String) (dflt : Nat) : Nat :=
  (f.dimlookup name).getD dflt

/-- Modelled from the spec: variable_exists(name). -/
def NcFile.variable_exists (f : NcFile) (name : String) : Bool :=
  (alookup f.vars name).isSome

/-- Modelled from the spec: variable<NcDouble>(name) fails with a lookup error
when the variable is absent or has a mismatched element type. -/
def NcFile.variableD (f : NcFile) (name : String) : Except ChemErr NcVariable :=
  match alookup f.vars name with
  | some v =>
      if v.type = NcType.NcDouble then .ok v
      else .error (.lookupError ("wrong type for variable " ++ name))
  | none => .error (.lookupError ("missing variable " ++ name))

/-- Modelled from the spec: attribute_exists on a variable. -/
def NcVariable.attribute_exists (v : NcVariable) (name : String) : Bool :=
  (alookup v.floatAttrs name).isSome || (alookup v.strAttrs name).isSome

/-- Modelled from the spec: float_attribute reads a numeric attribute. -/
def NcVariable.float_attribute (v : NcVariable) (name : String) : ℚ :=
  (alookup v.floatAttrs name).getD 0

/-- Modelled from the spec: the accessor get(start, count) returns the data
buffer; the bounds must match the declared dimension sizes (all reads performed
by this codec start at the origin and cover the whole extent). -/
def NcVariable.get (v : NcVariable) (start count : List Nat) : Except ChemErr (List ℚ) :=
  if (∀ i ∈ start, i = 0) ∧ count = v.shape ∧ v.ddata.length = count.prod then
    .ok v.ddata
  else
    .error (.boundsError "wrong bounds for read")

/-- Modelled from the spec: the accessor add(start, count, buffer) stores the
buffer as the variable data; data may be written only in the DATA phase and the
bounds must match the declared dimension sizes. -/
def NcFile.varAdd (f : NcFile) (name : String) (start count : List Nat) (data : List ℚ) :
    Except ChemErr NcFile :=
  match alookup f.vars name with
  | none => .error (.lookupError ("missing variable " ++ name))
  | some v =>
      if v.type ≠ NcType.NcDouble then .error (.lookupError ("wrong type for variable " ++ name))
      else if f.mode ≠ NcMode.DATA then .error (.formatError "cannot write data in define mode")
      else if (∀ i ∈ start, i = 0) ∧ count = v.shape ∧ data.length = count.prod then
        .ok { f with vars := aupdate f.vars name { v with ddata := data } }
      else .error (.boundsError ("wrong bounds for variable " ++ name))

/-- Modelled from the spec: storing the text of an NcChar variable (used for
the fixed labels); data may be written only in the DATA phase. -/
def NcFile.varAddChars (f : NcFile) (name : String) (text : List String) :
    Except ChemErr NcFile :=
  match alookup f.vars name with
  | none => .error (.lookupError ("missing variable " ++ name))
  | some v =>
      if v.type ≠ NcType.NcChar then .error (.lookupError ("wrong type for variable " ++ name))
      else if f.mode ≠ NcMode.DATA then .error (.formatError "cannot write data in define mode")
      else .ok { f with vars := aupdate f.vars name { v with cdata := text } }

/-- Modelled from the spec: set_phase switches the mutation phase; going back
to DEFINE after DATA is unsupported. -/
def NcFile.set_nc_mode (f : NcFile) (m : NcMode) : Except ChemErr NcFile :=
  match f.mode, m with
  | .DATA, .DEFINE => .error (.formatError "cannot go back to define mode")
  | _, _ => .ok { f with mode := m }

/-- Modelled from the spec: add_global_attribute, valid only in DEFINE phase. -/
def NcFile.add_global_attribute (f : NcFile) (name value : String) : Except ChemErr NcFile :=
  if f.mode = NcMode.DEFINE then .ok { f with gattrs := f.gattrs ++ [(name, value)] }
  else .error (.formatError "cannot add attribute in data mode")

/-- Modelled from the spec: add_dimension, valid only in DEFINE phase. -/
def NcFile.add_dimension (f : NcFile) (name : String) (size : Nat) : Except ChemErr NcFile :=
  if f.mode = NcMode.DEFINE then .ok { f with dims := f.dims ++ [(name, size)] }
  else .error (.formatError "cannot add dimension in data mode")

/-- Modelled from the spec: add_variable declares a variable over existing
dimensions, valid only in DEFINE phase; its shape is the list of the named
dimensions' sizes and its data starts as a zero-filled buffer. -/
def NcFile.add_variable (f : NcFile) (name : String) (t : NcType) (dimNames : List String) :
    Except ChemErr NcFile :=
  if f.mode = NcMode.DEFINE then
    match dimNames.mapM f.dimlookup with
    | some shape =>
        .ok { f with vars := f.vars ++
          [(name, ⟨t, dimNames, shape, [], [], List.replicate shape.prod 0, []⟩)] }
    | none => .error (.lookupError "missing dimension for new variable")
  else .error (.formatError "cannot add variable in data mode")

/-- Modelled from the spec: add_string_attribute on a variable, in DEFINE phase. -/
def NcFile.varAddStrAttr (f : NcFile) (vname aname aval : String) : Except ChemErr NcFile :=
  match alookup f.vars vname with
  | none => .error (.lookupError ("missing variable " ++ vname))
  | some v =>
      if f.mode = NcMode.DEFINE then
        .ok { f with vars := aupdate f.vars vname { v with strAttrs := v.strAttrs ++ [(aname, aval)] } }
      else .error (.formatError "cannot add attribute in data mode")

/-- A three-component vector of rationals (chemfiles Vector3D). -/
structure Vector3D where
  x : ℚ
  y : ℚ
  z : ℚ
  deriving DecidableEq

/-- Modelled from the spec: a unit cell is a value constructible from three
lengths and three angles; the default cell is the empty or infinite cell with
zero lengths and right angles. -/
structure UnitCell where
  a : ℚ
  b : ℚ
  c : ℚ
  alpha : ℚ
  beta : ℚ
  gamma : ℚ
  deriving DecidableEq

/-- The default (empty / infinite) unit cell. -/
def UnitCell.default : UnitCell := ⟨0, 0, 0, 90, 90, 90⟩

/-- Modelled from the spec: a frame holds positions, optional velocities and a
unit cell. -/
structure Frame where
  positions : List Vector3D
  velocities : Option (List Vector3D)
  cell : UnitCell
  deriving DecidableEq

/-- An empty frame, the usual destination of a read. -/
def Frame.empty : Frame := ⟨[], none, UnitCell.default⟩

/-- Number of atoms in a frame. -/
def Frame.size (f : Frame) : Nat := f.positions.length

/-- Replace the cell of a frame. -/
def Frame.set_cell (f : Frame) (cell : UnitCell) : Frame := { f with cell := cell }

/-- Resizing a vector list: keep a prefix, pad with zero vectors. -/
def padResize (xs : List Vector3D) (n : Nat) : List Vector3D :=
  xs.take n ++ List.replicate (n - xs.length) ⟨0, 0, 0⟩

/-- Modelled from the spec: resize(atomCount) resizes the per-atom storage of
the frame (positions, and velocities when they are present). -/
def Frame.resize (f : Frame) (n : Nat) : Frame :=
  { f with positions := padResize f.positions n,
           velocities := f.velocities.map (fun v => padResize v n) }

/-- Modelled from the spec: add_velocities allocates zero-filled velocity
storage when the frame has none, and does nothing otherwise. -/
def Frame.add_velocities (f : Frame) : Frame :=
  match f.velocities with
  | some _ => f
  | none => { f with velocities := some (List.replicate f.size ⟨0, 0, 0⟩) }

/-- The per-handle state of the codec: the owned container, the frame-consumed
flag and the validated flag (AmberRestartFormat in AmberRestart.hpp). -/
structure AmberRestartFormat where
  file_ : NcFile
  step_done_ : Bool
  validated_ : Bool
  deriving DecidableEq

/-- The single-frame-violation error raised on reading. -/
def singleFrameReadError : ChemErr :=
  .formatError "AMBER Restart format only supports reading one frame"

/-- The single-frame-violation error raised on writing. -/
def singleFrameWriteError : ChemErr :=
  .formatError "AMBER Restart format only supports writing one frame"

/-- Validation of a container against the convention, from is_valid in
AmberRestart.cpp.  The C++ sentinel natoms == (size_t)-1 for the read path is
rendered as an Option: none means reading, some n means the write-path
self-check against the atom dimension. -/
def is_valid (file : NcFile) (natoms : Option Nat) : Except ChemErr Bool := do
  if file.global_attribute "Conventions" ≠ some "AMBERRESTART" then
    return false
  if file.global_attribute "ConventionVersion" ≠ some "1.0" then
    return false
  let spatial ← file.dimension "spatial"
  if spatial ≠ 3 then
    return false
  match natoms with
  | some n =>
      let atom ← file.dimension "atom"
      if atom ≠ n then
        return false
      return true
  | none => return true

/-- Opening modes of a file handle. -/
inductive FileMode where
  | READ
  | WRITE
  | APPEND
  deriving DecidableEq

/-- Compression options of a file handle. -/
inductive FileCompression where
  | DEFAULT
  | GZIP
  | LZMA
  | BZIP2
  deriving DecidableEq

/-- The constructor AmberRestartFormat::AmberRestartFormat, acting on the
already-opened container contents: read mode validates immediately, append
mode is rejected, then any compression option is rejected. -/
def openFormat (file : NcFile) (mode : FileMode) (compression : FileCompression) :
    Except ChemErr AmberRestartFormat := do
  let validated ←
    match mode with
    | .READ => do
        let valid ← is_valid file none
        if !valid then
          throw (ChemErr.formatError "invalid AMBER Restart file")
        pure true
    | .APPEND =>
        throw (ChemErr.formatError "append mode is not supported with AMBER Restart format")
    | .WRITE => pure false
  if compression ≠ FileCompression.DEFAULT then
    throw (ChemErr.formatError "compression is not supported with NetCDF format")
  return ⟨file, false, validated⟩

/-- AmberRestartFormat::nsteps. -/
def nsteps (_fmt : AmberRestartFormat) : Nat := 1

/-- AmberRestartFormat::read_cell. -/
def read_cell (file : NcFile) : Except ChemErr UnitCell := do
  if file.variable_exists "cell_lengths" = false ∨ file.variable_exists "cell_angles" = false then
    return UnitCell.default
  if file.optional_dimension "cell_spatial" 0 ≠ 3 ∨ file.optional_dimension "cell_angular" 0 ≠ 3 then
    return UnitCell.default
  let length_var ← file.variableD "cell_lengths"
  let angles_var ← file.variableD "cell_angles"
  let length ← length_var.get [0] [3]
  let angles ← angles_var.get [0] [3]
  let length :=
    if length_var.attribute_exists "scale_factor" then
      length.map (fun v => v * length_var.float_attribute "scale_factor")
    else length
  let angles :=
    if angles_var.attribute_exists "scale_factor" then
      angles.map (fun v => v * angles_var.float_attribute "scale_factor")
    else angles
  return ⟨length.getD 0 0, length.getD 1 0, length.getD 2 0,
          angles.getD 0 0, angles.getD 1 0, angles.getD 2 0⟩

/-- AmberRestartFormat::read_array: read a [atom, spatial] variable, apply the
scale factor when present, and reshape the flat buffer into one 3-vector per
atom; the destination span of the C++ code is returned as a fresh list (the
caller has resized it to the atom dimension, and the loop overwrites it
entirely). -/
def read_array (file : NcFile) (name : String) : Except ChemErr (List Vector3D) := do
  let array_var ← file.variableD name
  let natoms ← file.dimension "atom"
  let data ← array_var.get [0, 0] [natoms, 3]
  let data :=
    if array_var.attribute_exists "scale_factor" then
      data.map (fun v => v * array_var.float_attribute "scale_factor")
    else data
  return (List.range natoms).map (fun i =>
    ⟨data.getD (3 * i) 0, data.getD (3 * i + 1) 0, data.getD (3 * i + 2) 0⟩)

/-- AmberRestartFormat::read_step.  The C++ function mutates the frame by
reference, so the result keeps the frame (and the codec state) as mutated so
far even when a step fails; the third component is the raised error, if any. -/
def read_step (fmt : AmberRestartFormat) (step : Nat) (frame : Frame) :
    AmberRestartFormat × Frame × Option ChemErr :=
  if step ≠ 0 then (fmt, frame, some singleFrameReadError)
  else
    match read_cell fmt.file_ with
    | .error e => (fmt, frame, some e)
    | .ok cell =>
      let frame := frame.set_cell cell
      match fmt.file_.dimension "atom" with
      | .error e => (fmt, frame, some e)
      | .ok natoms =>
        let frame := frame.resize natoms
        match read_array fmt.file_ "coordinates" with
        | .error e => (fmt, frame, some e)
        | .ok pos =>
          let frame := { frame with positions := pos }
          if fmt.file_.variable_exists "velocities" then
            let frame := frame.add_velocities
            match read_array fmt.file_ "velocities" with
            | .error e => (fmt, frame, some e)
            | .ok vel =>
              ({ fmt with step_done_ := true }, { frame with velocities := some vel }, none)
          else
            ({ fmt with step_done_ := true }, frame, none)

/-- AmberRestartFormat::read: fail fast when the frame was already consumed,
otherwise delegate to read_step at step 0. -/
def read (fmt : AmberRestartFormat) (frame : Frame) :
    AmberRestartFormat × Frame × Option ChemErr :=
  if fmt.step_done_ then (fmt, frame, some singleFrameReadError)
  else read_step fmt 0 frame

/-- The fixed maximal label length (nc::STRING_MAXLEN). -/
def STRING_MAXLEN : Nat := 10

/-- The program version recorded by the writer (CHEMFILES_VERSION from
chemfiles/config.h). -/
def CHEMFILES_VERSION : String := "0.9.3"

/-- The one-time schema initialization of a freshly created container, from
the file-static helper in AmberRestart.cpp. -/
def initRestart (file : NcFile) (natoms : Nat) (with_velocities : Bool) :
    Except ChemErr NcFile := do
  let file ← file.set_nc_mode .DEFINE
  let file ← file.add_global_attribute "Conventions" "AMBERRESTART"
  let file ← file.add_global_attribute "ConventionVersion" "1.0"
  let file ← file.add_global_attribute "program" "Chemfiles"
  let file ← file.add_global_attribute "programVersion" CHEMFILES_VERSION
  let file ← file.add_dimension "spatial" 3
  let file ← file.add_dimension "atom" natoms
  let file ← file.add_dimension "cell_spatial" 3
  let file ← file.add_dimension "cell_angular" 3
  let file ← file.add_dimension "label" STRING_MAXLEN
  let file ← file.add_variable "spatial" .NcChar ["spatial"]
  let file ← file.add_variable "cell_spatial" .NcChar ["cell_spatial"]
  let file ← file.add_variable "cell_angular" .NcChar ["cell_angular", "label"]
  let file ← file.add_variable "coordinates" .NcDouble ["atom", "spatial"]
  let file ← file.varAddStrAttr "coordinates" "units" "angstrom"
  let file ← file.add_variable "cell_lengths" .NcDouble ["cell_spatial"]
  let file ← file.varAddStrAttr "cell_lengths" "units" "angstrom"
  let file ← file.add_variable "cell_angles" .NcDouble ["cell_angular"]
  let file ← file.varAddStrAttr "cell_angles" "units" "degree"
  let file ←
    if with_velocities then do
      let file ← file.add_variable "velocities" .NcDouble ["atom", "spatial"]
      file.varAddStrAttr "velocities" "units" "angstrom/picosecond"
    else pure file
  let file ← file.set_nc_mode .DATA
  let file ← file.varAddChars "spatial" ["xyz"]
  let file ← file.varAddChars "cell_spatial" ["abc"]
  let file ← file.varAddChars "cell_angular" ["alpha", "beta", "gamma"]
  return file

/-- The flat buffer built by AmberRestartFormat::write_array: element 3*i+k is
component k of vector i. -/
def flatten3 : List Vector3D → List ℚ
  | [] => []
  | v :: rest => v.x :: v.y :: v.z :: flatten3 rest

/-- AmberRestartFormat::write_array. -/
def write_array (file : NcFile) (array : List Vector3D) (name : String) :
    Except ChemErr NcFile :=
  file.varAdd name [0, 0] [array.length, 3] (flatten3 array)

/-- AmberRestartFormat::write_cell. -/
def write_cell (file : NcFile) (cell : UnitCell) : Except ChemErr NcFile := do
  let file ← file.varAdd "cell_lengths" [0] [3] [cell.a, cell.b, cell.c]
  file.varAdd "cell_angles" [0] [3] [cell.alpha, cell.beta, cell.gamma]

/-- AmberRestartFormat::write.  As in read_step, the C++ method mutates the
handle in place, so partial mutations survive a failing call; the second
component is the raised error, if any. -/
def write (fmt : AmberRestartFormat) (frame : Frame) :
    AmberRestartFormat × Option ChemErr :=
  if fmt.step_done_ then (fmt, some singleFrameWriteError)
  else
    let natoms := frame.size
    match (if !fmt.validated_ then initRestart fmt.file_ natoms frame.velocities.isSome
           else .ok fmt.file_) with
    | .error e => (fmt, some e)
    | .ok file =>
      let fmt := { fmt with file_ := file, validated_ := true }
      match write_cell fmt.file_ frame.cell with
      | .error e => (fmt, some e)
      | .ok file =>
        let fmt := { fmt with file_ := file }
        match write_array fmt.file_ frame.positions "coordinates" with
        | .error e => (fmt, some e)
        | .ok file =>
          let fmt := { fmt with file_ := file }
          match frame.velocities with
          | none => ({ fmt with step_done_ := true }, none)
          | some vel =>
            match write_array fmt.file_ vel "velocities" with
            | .error e => (fmt, some e)
            | .ok file => ({ fmt with file_ := file, step_done_ := true }, none)

/-- Shorthand for a double variable with a units attribute, as the writer
declares them. -/
def dvar (dimNames : List String) (shape : List Nat) (units : String) (data : List ℚ) :
    NcVariable :=
  ⟨.NcDouble, dimNames, shape, [("units", units)], [], data, []⟩

/-- Shorthand for a label variable with its final text, as the writer leaves
them. -/
def cvar (dimNames : List String) (shape : List Nat) (text : List String) : NcVariable :=
  ⟨.NcChar, dimNames, shape, [], [], List.replicate shape.prod 0, text⟩

/-- The container produced by the schema initialization for n atoms. -/
def initializedFile (n : Nat) (wv : Bool) : NcFile :=
  { mode := .DATA,
    dims := [("spatial", 3), ("atom", n), ("cell_spatial", 3), ("cell_angular", 3),
             ("label", 10)],
    vars := [("spatial", cvar ["spatial"] [3] ["xyz"]),
             ("cell_spatial", cvar ["cell_spatial"] [3] ["abc"]),
             ("cell_angular", cvar ["cell_angular", "label"] [3, 10] ["alpha", "beta", "gamma"]),
             ("coordinates", dvar ["atom", "spatial"] [n, 3] "angstrom" (List.replicate (n * 3) 0)),
             ("cell_lengths", dvar ["cell_spatial"] [3] "angstrom" (List.replicate 3 0)),
             ("cell_angles", dvar ["cell_angular"] [3] "degree" (List.replicate 3 0))]
            ++ (if wv then
                  [("velocities",
                    dvar ["atom", "spatial"] [n, 3] "angstrom/picosecond" (List.replicate (n * 3) 0))]
                else []),
    gattrs := [("Conventions", "AMBERRESTART"), ("ConventionVersion", "1.0"),
               ("program", "Chemfiles"), ("programVersion", CHEMFILES_VERSION)] }

/-- A container carrying the amber schema for n atoms, a stored cell, stored
coordinate data and optional stored velocity data; the shape every container
written by this codec takes. -/
def filledFile (n : Nat) (cell : UnitCell) (cdata : List ℚ) (vdata : Option (List ℚ)) : NcFile :=
  { mode := .DATA,
    dims := [("spatial", 3), ("atom", n), ("cell_spatial", 3), ("cell_angular", 3),
             ("label", 10)],
    vars := [("spatial", cvar ["spatial"] [3] ["xyz"]),
             ("cell_spatial", cvar ["cell_spatial"] [3] ["abc"]),
             ("cell_angular", cvar ["cell_angular", "label"] [3, 10] ["alpha", "beta", "gamma"]),
             ("coordinates", dvar ["atom", "spatial"] [n, 3] "angstrom" cdata),
             ("cell_lengths", dvar ["cell_spatial"] [3] "angstrom" [cell.a, cell.b, cell.c]),
             ("cell_angles",
              dvar ["cell_angular"] [3] "degree" [cell.alpha, cell.beta, cell.gamma])]
            ++ (match vdata with
                | some vd =>
                  [("velocities", dvar ["atom", "spatial"] [n, 3] "angstrom/picosecond" vd)]
                | none => []),
    gattrs := [("Conventions", "AMBERRESTART"), ("ConventionVersion", "1.0"),
               ("program", "Chemfiles"), ("programVersion", CHEMFILES_VERSION)] }

/-- The container left behind by a successful write of a frame into a freshly
created file. -/
def writtenFile (frame : Frame) : NcFile :=
  filledFile frame.positions.length frame.cell (flatten3 frame.positions)
    (frame.velocities.map flatten3)

/-- The effective multiplier of a variable: its scale factor when present,
one otherwise. -/
def scaleOf (v : NcVariable) : ℚ :=
  if v.attribute_exists "scale_factor" then v.float_attribute "scale_factor" else 1

/-- The validation predicate exactly as the specification words it: a pure
short-circuiting conjunction of the four checks, returning false on the first
failing check. -/
def is_valid_claim (file : NcFile) (natoms : Option Nat) : Bool :=
  (file.global_attribute "Conventions" == some "AMBERRESTART") &&
  (file.global_attribute "ConventionVersion" == some "1.0") &&
  (file.dimlookup "spatial" == some 3) &&
  (match natoms with
   | none => true
   | some n => file.dimlookup "atom" == some n)

/-- A small frame with one atom and no velocities. -/
def sampleFrame : Frame := ⟨[⟨1, 2, 3⟩], none, UnitCell.default⟩

/-- A small frame with one atom, velocities and a nontrivial cell. -/
def sampleVelFrame : Frame := ⟨[⟨1, 2, 3⟩], some [⟨4, 5, 6⟩], ⟨10, 11, 12, 90, 90, 120⟩⟩

/-- A container with the right convention attributes but no dimension at all. -/
def noSpatialFile : NcFile :=
  ⟨.DATA, [], [], [("Conventions", "AMBERRESTART"), ("ConventionVersion", "1.0")]⟩

/-- A container holding only cell information: valid convention attributes, a
readable unit cell, but no atom dimension and no coordinates. -/
def noAtomFile : NcFile :=
  ⟨.DATA,
   [("spatial", 3), ("cell_spatial", 3), ("cell_angular", 3)],
   [("cell_lengths", dvar ["cell_spatial"] [3] "angstrom" [4, 5, 6]),
    ("cell_angles", dvar ["cell_angular"] [3] "degree" [90, 90, 91])],
   [("Conventions", "AMBERRESTART"), ("ConventionVersion", "1.0")]⟩

/-- A cell-lengths variable carrying a scale factor of 2. -/
def scaledLengths : NcVariable :=
  ⟨.NcDouble, ["cell_spatial"], [3], [("units", "angstrom")], [("scale_factor", 2)],
   [1, 2, 3], []⟩

/-- A cell-angles variable without a scale factor. -/
def plainAngles : NcVariable :=
  ⟨.NcDouble, ["cell_angular"], [3], [("units", "degree")], [], [90, 90, 90], []⟩

/-- A container whose cell lengths carry a scale factor. -/
def scaledCellFile : NcFile :=
  ⟨.DATA,
   [("spatial", 3), ("cell_spatial", 3), ("cell_angular", 3)],
   [("cell_lengths", scaledLengths), ("cell_angles", plainAngles)],
   [("Conventions", "AMBERRESTART"), ("ConventionVersion", "1.0")]⟩

/-- A coordinates variable over two atoms carrying a scale factor of 1/2. -/
def scaledCoords : NcVariable :=
  ⟨.NcDouble, ["atom", "spatial"], [2, 3], [("units", "angstrom")], [("scale_factor", 1/2)],
   [1, 2, 3, 4, 5, 6], []⟩

/-- A container whose coordinates carry a scale factor. -/
def scaledPosFile : NcFile :=
  ⟨.DATA,
   [("spatial", 3), ("atom", 2)],
   [("coordinates", scaledCoords)],
   [("Conventions", "AMBERRESTART"), ("ConventionVersion", "1.0")]⟩

/-- Binding a success value in the Except monad applies the continuation. -/
theorem ebind_ok {α β : Type} (a : α) (f : α → Except ChemErr β) :
    (Except.ok a >>= f) = f a := rfl

/-- Binding an error in the Except monad propagates the error. -/
theorem ebind_err {α β : Type} (e : ChemErr) (f : α → Except ChemErr β) :
    ((Except.error e : Except ChemErr α) >>= f) = Except.error e := rfl

/-- Pure in the Except monad is the ok constructor. -/
theorem epure_ok {α : Type} (a : α) : (pure a : Except ChemErr α) = Except.ok a := rfl

/-- Throw in the Except monad is the error constructor. -/
theorem ethrow {α : Type} (e : ChemErr) : (throw e : Except ChemErr α) = Except.error e := rfl

/-- Mapping over an error in the Except monad keeps the error. -/
theorem emap_err {α β : Type} (e : ChemErr) (f : α → β) :
    (f <$> (Except.error e : Except ChemErr α)) = (Except.error e : Except ChemErr β) := rfl

/-- Length of the flat buffer built by write_array. -/
theorem flatten3_length (xs : List Vector3D) : (flatten3 xs).length = 3 * xs.length := by
  induction xs with
  | nil => simp [flatten3]
  | cons v rest ih => simp [flatten3, ih]; ring

/-- The reshaping loop of read_array inverts the flattening loop of
write_array. -/
theorem unflatten_flatten (xs : List Vector3D) :
    (List.range xs.length).map (fun i =>
      (⟨(flatten3 xs).getD (3 * i) 0, (flatten3 xs).getD (3 * i + 1) 0,
        (flatten3 xs).getD (3 * i + 2) 0⟩ : Vector3D)) = xs := by
  induction xs with
  | nil => simp
  | cons v rest ih =>
    rw [List.length_cons, List.range_succ_eq_map, List.map_cons, List.map_map]
    congr 1

/-- Reading a default-padded element of a scaled buffer is scaling the
element. -/
theorem getD_map_mul (data : List ℚ) (s : ℚ) (k : Nat) :
    (data.map (fun v => v * s)).getD k 0 = data.getD k 0 * s := by
  rcases h : data[k]? with _ | q <;>
    simp [List.getD_eq_getElem?_getD, List.getElem?_map, h]

/-- Reading a default-padded optional element of a scaled buffer is scaling
the element. -/
theorem getD_opt_map_mul (o : Option ℚ) (s : ℚ) :
    (Option.map (fun q => q * s) o).getD 0 = o.getD 0 * s := by
  rcases o <;> simp

/-- A variable found at NcDouble type exists. -/
theorem variableD_exists (f : NcFile) (name : String) (v : NcVariable)
    (h : f.variableD name = .ok v) : f.variable_exists name = true := by
  unfold NcFile.variableD at h
  unfold NcFile.variable_exists
  rcases hl : alookup f.vars name with _ | w
  · rw [hl] at h; exact absurd h (by simp)
  · rfl

/-- Schema initialization of a fresh container succeeds and produces the
initialized container. -/
theorem init_eq (n : Nat) (wv : Bool) :
    initRestart NcFile.empty n wv = .ok (initializedFile n wv) := by
  cases wv <;> rfl

/-- Writing the cell into a freshly initialized container. -/
theorem write_cell_init (n : Nat) (wv : Bool) (cell : UnitCell) :
    write_cell (initializedFile n wv) cell =
      .ok (filledFile n cell (List.replicate (n * 3) 0)
            (if wv then some (List.replicate (n * 3) 0) else none)) := by
  cases wv <;> rfl

/-- Writing the coordinate array into a written-schema container. -/
theorem write_array_coords (n : Nat) (cell : UnitCell) (cd : List ℚ) (vd : Option (List ℚ))
    (pos : List Vector3D) (h : pos.length = n) :
    write_array (filledFile n cell cd vd) pos "coordinates" =
      .ok (filledFile n cell (flatten3 pos) vd) := by
  subst h
  rcases vd with _ | vdd <;>
    simp [write_array, NcFile.varAdd, filledFile, alookup, aupdate, dvar, cvar,
          flatten3_length, Nat.mul_comm]

/-- Writing the velocity array into a written-schema container. -/
theorem write_array_vels (n : Nat) (cell : UnitCell) (cd : List ℚ) (vdold : List ℚ)
    (vel : List Vector3D) (h : vel.length = n) :
    write_array (filledFile n cell cd (some vdold)) vel "velocities" =
      .ok (filledFile n cell cd (some (flatten3 vel))) := by
  subst h
  simp [write_array, NcFile.varAdd, filledFile, alookup, aupdate, dvar, cvar,
        flatten3_length, Nat.mul_comm]

/-- Writing a velocity-free frame into a fresh container. -/
theorem write_fresh_none (pos : List Vector3D) (cell : UnitCell) :
    write ⟨NcFile.empty, false, false⟩ ⟨pos, none, cell⟩ =
      (⟨filledFile pos.length cell (flatten3 pos) none, true, true⟩, none) := by
  unfold write
  rw [if_neg (by simp)]
  simp only [Frame.size, Option.isSome_none, Bool.not_false, if_true]
  rw [init_eq]
  simp only [write_cell_init, if_false]
  rw [write_array_coords pos.length cell _ _ pos rfl]
  simp

/-- Writing a frame with velocities into a fresh container. -/
theorem write_fresh_some (pos w : List Vector3D) (cell : UnitCell)
    (hw : w.length = pos.length) :
    write ⟨NcFile.empty, false, false⟩ ⟨pos, some w, cell⟩ =
      (⟨filledFile pos.length cell (flatten3 pos) (some (flatten3 w)), true, true⟩, none) := by
  unfold write
  rw [if_neg (by simp)]
  simp only [Frame.size, Option.isSome_some, Bool.not_false, if_true]
  rw [init_eq]
  simp only [write_cell_init, if_true]
  rw [write_array_coords pos.length cell _ _ pos rfl]
  simp only []
  rw [write_array_vels pos.length cell _ _ w hw]

/-- Writing any well-formed frame into a fresh container succeeds and leaves
the written container. -/
theorem write_fresh (frame : Frame)
    (hv : ∀ w, frame.velocities = some w → w.length = frame.positions.length) :
    write ⟨NcFile.empty, false, false⟩ frame = (⟨writtenFile frame, true, true⟩, none) := by
  obtain ⟨pos, vel, cell⟩ := frame
  rcases vel with _ | w
  · exact write_fresh_none pos cell
  · exact write_fresh_some pos w cell (hv w rfl)

/-- Opening a written container for reading validates it. -/
theorem open_written (n : Nat) (cell : UnitCell) (cd : List ℚ) (vd : Option (List ℚ)) :
    openFormat (filledFile n cell cd vd) .READ .DEFAULT =
      .ok ⟨filledFile n cell cd vd, false, true⟩ := by rfl

/-- Reading the cell of a written container recovers the cell exactly. -/
theorem read_cell_written (n : Nat) (cell : UnitCell) (cd : List ℚ) (vd : Option (List ℚ)) :
    read_cell (filledFile n cell cd vd) = .ok cell := by rfl

/-- The atom dimension of a written container. -/
theorem dim_atom_written (n : Nat) (cell : UnitCell) (cd : List ℚ) (vd : Option (List ℚ)) :
    (filledFile n cell cd vd).dimension "atom" = .ok n := by rfl

/-- A written container has a velocities variable exactly when velocity data
was stored. -/
theorem vexists_vels (n : Nat) (cell : UnitCell) (cd : List ℚ) (vd : Option (List ℚ)) :
    (filledFile n cell cd vd).variable_exists "velocities" = vd.isSome := by
  rcases vd with _ | v <;> rfl

/-- Reading back the coordinates of a written container recovers the
positions exactly. -/
theorem read_array_coords (cell : UnitCell) (vd : Option (List ℚ)) (pos : List Vector3D) :
    read_array (filledFile pos.length cell (flatten3 pos) vd) "coordinates" = .ok pos := by
  have h := unflatten_flatten pos
  simp only [Nat.mul_comm, List.getD_eq_getElem?_getD] at h
  rcases vd with _ | vdd <;>
    (simp [read_array, NcFile.variableD, NcFile.dimension, NcFile.dimlookup, NcVariable.get,
           filledFile, alookup, dvar, cvar, NcVariable.attribute_exists,
           ebind_ok, epure_ok, flatten3_length, Nat.mul_comm]
     exact h)

/-- Reading back the velocities of a written container recovers them
exactly. -/
theorem read_array_vels (cell : UnitCell) (cd : List ℚ) (pos w : List Vector3D)
    (hw : w.length = pos.length) :
    read_array (filledFile pos.length cell cd (some (flatten3 w))) "velocities" = .ok w := by
  have h := unflatten_flatten w
  simp only [Nat.mul_comm, List.getD_eq_getElem?_getD] at h
  rw [← hw]
  simp [read_array, NcFile.variableD, NcFile.dimension, NcFile.dimlookup, NcVariable.get,
        filledFile, alookup, dvar, cvar, NcVariable.attribute_exists,
        ebind_ok, epure_ok, flatten3_length, Nat.mul_comm]
  exact h

/-- Reading a written container into an empty frame recovers the frame that
was written. -/
theorem read_written (pos : List Vector3D) (vel : Option (List Vector3D)) (cell : UnitCell)
    (hv : ∀ w, vel = some w → w.length = pos.length) :
    read ⟨filledFile pos.length cell (flatten3 pos) (vel.map flatten3), false, true⟩ Frame.empty =
      (⟨filledFile pos.length cell (flatten3 pos) (vel.map flatten3), true, true⟩,
       ⟨pos, vel, cell⟩, none) := by
  rcases vel with _ | w
  · unfold read read_step
    rw [if_neg (by simp)]
    rw [if_neg (by simp)]
    rw [read_cell_written, dim_atom_written]
    simp only [read_array_coords, vexists_vels, Option.map_none, Option.isSome_none,
               Bool.false_eq_true, if_false]
    simp [Frame.empty, Frame.set_cell, Frame.resize, padResize]
  · have hw : w.length = pos.length := hv w rfl
    unfold read read_step
    rw [if_neg (by simp)]
    rw [if_neg (by simp)]
    rw [read_cell_written, dim_atom_written]
    simp only [read_array_coords, vexists_vels, Option.map_some', Option.isSome_some, if_true]
    simp only [Frame.add_velocities, Frame.empty, Frame.set_cell, Frame.resize, padResize,
               Option.map_none']
    rw [read_array_vels cell (flatten3 pos) pos w hw]

/-- A successful write marks the frame as consumed. -/
theorem write_sets_done (fmt : AmberRestartFormat) (frame : Frame)
    (fmt2 : AmberRestartFormat) (h : write fmt frame = (fmt2, none)) :
    fmt2.step_done_ = true := by
  unfold write at h
  by_cases hd : fmt.step_done_ = true
  · rw [if_pos hd] at h
    simp at h
  · rw [if_neg hd] at h
    simp only [] at h
    rcases h1 : (if !fmt.validated_ then initRestart fmt.file_ frame.size frame.velocities.isSome
                 else .ok fmt.file_) with e | file <;> rw [h1] at h <;> simp only [] at h
    · simp at h
    · rcases h2 : write_cell file frame.cell with e | file2 <;> rw [h2] at h <;>
        simp only [] at h
      · simp at h
      · rcases h3 : write_array file2 frame.positions "coordinates" with e | file3 <;>
          rw [h3] at h <;> simp only [] at h
        · simp at h
        · rcases h4 : frame.velocities with _ | vel <;> rw [h4] at h <;> simp only [] at h
          · exact (congrArg (fun p => p.1.step_done_) h).symm
          · rcases h5 : write_array file3 vel "velocities" with e | file4 <;> rw [h5] at h <;>
              simp only [] at h
            · simp at h
            · exact (congrArg (fun p => p.1.step_done_) h).symm

/-- C1 counterexample: contrary to the claim, read_step does not fail once the
single frame was consumed.  On a handle whose frame-consumed flag is set,
read_step(0) succeeds (raises no error) and re-reads the frame. -/
theorem read_step_after_consumed_succeeds :
    (⟨writtenFile sampleFrame, true, true⟩ : AmberRestartFormat).step_done_ = true ∧
    (read_step ⟨writtenFile sampleFrame, true, true⟩ 0 Frame.empty).2.2 = none :=
  ⟨rfl, rfl⟩

/-- C1 (amended): read_step(step, frame) fails with the single-frame-violation
error exactly when step is nonzero, regardless of whether the frame was
already consumed; read() fails fast with the same error when the frame was
already consumed, and otherwise delegates to read_step(0). -/
theorem read_single_frame_contract :
    (∀ (fmt : AmberRestartFormat) (frame : Frame) (step : Nat), step ≠ 0 →
        read_step fmt step frame = (fmt, frame, some singleFrameReadError)) ∧
    (∀ (fmt : AmberRestartFormat) (frame : Frame), fmt.step_done_ = true →
        read fmt frame = (fmt, frame, some singleFrameReadError)) ∧
    (∀ (fmt : AmberRestartFormat) (frame : Frame), fmt.step_done_ = false →
        read fmt frame = read_step fmt 0 frame) := by
  refine ⟨?_, ?_, ?_⟩
  · intro fmt frame step h
    unfold read_step
    rw [if_pos h]
  · intro fmt frame h
    unfold read
    rw [if_pos h]
  · intro fmt frame h
    unfold read
    rw [if_neg (by simp [h])]

/-- C1 witness: the amended contract at concrete handles. -/
theorem read_single_frame_contract_witness :
    read_step ⟨writtenFile sampleFrame, false, true⟩ 1 Frame.empty =
      (⟨writtenFile sampleFrame, false, true⟩, Frame.empty, some singleFrameReadError) ∧
    read ⟨writtenFile sampleFrame, true, true⟩ Frame.empty =
      (⟨writtenFile sampleFrame, true, true⟩, Frame.empty, some singleFrameReadError) ∧
    read ⟨writtenFile sampleFrame, false, true⟩ Frame.empty =
      read_step ⟨writtenFile sampleFrame, false, true⟩ 0 Frame.empty :=
  ⟨read_single_frame_contract.1 _ _ 1 (by decide),
   read_single_frame_contract.2.1 _ _ rfl,
   read_single_frame_contract.2.2 _ _ rfl⟩

/-- C3 counterexample: on a container with the right convention attributes but
no spatial dimension at all, is_valid does not return false as the claim
states; it raises a lookup error, while the claim-side conjunction is false. -/
theorem is_valid_missing_dimension :
    is_valid noSpatialFile none = .error (.lookupError "missing dimension spatial") ∧
    is_valid_claim noSpatialFile none = false :=
  ⟨rfl, rfl⟩

/-- C3 (amended): provided every dimension that is consulted exists (the
spatial dimension, and the atom dimension when an expected atom count is
supplied), is_valid returns the short-circuiting conjunction of the four
checks, in order, false on the first failing check and true when all
applicable checks pass; and in the counterexample's case, when both
convention attributes match but the spatial dimension is absent, is_valid
raises the container's lookup error instead of returning false. -/
theorem is_valid_contract :
    (∀ (file : NcFile) (natoms : Option Nat),
        (file.dimlookup "spatial").isSome = true →
        (natoms.isSome = true → (file.dimlookup "atom").isSome = true) →
        is_valid file natoms = .ok (is_valid_claim file natoms)) ∧
    (∀ (file : NcFile) (natoms : Option Nat),
        file.global_attribute "Conventions" = some "AMBERRESTART" →
        file.global_attribute "ConventionVersion" = some "1.0" →
        file.dimlookup "spatial" = none →
        is_valid file natoms = .error (.lookupError "missing dimension spatial")) := by
  constructor
  · intro file natoms h1 h2
    obtain ⟨ns, hns⟩ := Option.isSome_iff_exists.mp h1
    rcases natoms with _ | n
    · by_cases hc1 : file.global_attribute "Conventions" = some "AMBERRESTART" <;>
      by_cases hc2 : file.global_attribute "ConventionVersion" = some "1.0" <;>
      by_cases hs : ns = 3 <;>
      simp [is_valid, is_valid_claim, NcFile.dimension, hns, hc1, hc2, hs,
            ebind_ok, ebind_err, epure_ok]
    · obtain ⟨m, hm⟩ := Option.isSome_iff_exists.mp (h2 rfl)
      by_cases hc1 : file.global_attribute "Conventions" = some "AMBERRESTART" <;>
      by_cases hc2 : file.global_attribute "ConventionVersion" = some "1.0" <;>
      by_cases hs : ns = 3 <;>
      by_cases ha : m = n <;>
      simp [is_valid, is_valid_claim, NcFile.dimension, hns, hm, hc1, hc2, hs, ha,
            ebind_ok, ebind_err, epure_ok]
  · intro file natoms hc1 hc2 hd
    simp [is_valid, NcFile.dimension, hc1, hc2, hd, ebind_ok, ebind_err, epure_ok]

/-- C3 witness: the amended contract at concrete containers. -/
theorem is_valid_contract_witness :
    ((writtenFile sampleFrame).dimlookup "spatial").isSome = true ∧
    is_valid (writtenFile sampleFrame) none = .ok (is_valid_claim (writtenFile sampleFrame) none) ∧
    is_valid noSpatialFile (some 1) = .error (.lookupError "missing dimension spatial") :=
  ⟨rfl,
   is_valid_contract.1 (writtenFile sampleFrame) none rfl (fun h => by simp at h),
   is_valid_contract.2 noSpatialFile (some 1) rfl rfl rfl⟩

/-- C4: once a write succeeded through a handle, a second write fails with the
single-frame-violation error and returns the handle exactly as the first
write left it: neither the container contents nor the codec flags change. -/
theorem write_second_fails (fmt : AmberRestartFormat) (frame frame2 : Frame)
    (fmt2 : AmberRestartFormat) (h : write fmt frame = (fmt2, none)) :
    write fmt2 frame2 = (fmt2, some singleFrameWriteError) := by
  have hd := write_sets_done fmt frame fmt2 h
  unfold write
  rw [if_pos hd]

/-- C4 witness: a concrete first write followed by a failing second write. -/
theorem write_second_fails_witness :
    write ⟨NcFile.empty, false, false⟩ sampleFrame = (⟨writtenFile sampleFrame, true, true⟩, none) ∧
    write ⟨writtenFile sampleFrame, true, true⟩ sampleVelFrame =
      (⟨writtenFile sampleFrame, true, true⟩, some singleFrameWriteError) :=
  ⟨rfl, write_second_fails ⟨NcFile.empty, false, false⟩ sampleFrame sampleVelFrame _ rfl⟩

/-- C8: read_step installs the unit cell into the destination frame before it
touches the positions, so when a later step fails (the atom dimension lookup,
or the coordinates read), the call returns with the caller's frame already
mutated (its cell replaced, and its storage resized in the second case) while
the codec state, including the frame-consumed flag, is unchanged. -/
theorem read_step_partial_mutation :
    (∀ (fmt : AmberRestartFormat) (frame : Frame) (cell : UnitCell) (e : ChemErr),
        read_cell fmt.file_ = .ok cell →
        fmt.file_.dimension "atom" = .error e →
        read_step fmt 0 frame = (fmt, frame.set_cell cell, some e)) ∧
    (∀ (fmt : AmberRestartFormat) (frame : Frame) (cell : UnitCell) (n : Nat) (e : ChemErr),
        read_cell fmt.file_ = .ok cell →
        fmt.file_.dimension "atom" = .ok n →
        read_array fmt.file_ "coordinates" = .error e →
        read_step fmt 0 frame = (fmt, (frame.set_cell cell).resize n, some e)) := by
  constructor
  · intro fmt frame cell e h1 h2
    unfold read_step
    rw [if_neg (by simp)]
    rw [h1]
    simp only []
    rw [h2]
  · intro fmt frame cell n e h1 h2 h3
    unfold read_step
    rw [if_neg (by simp)]
    rw [h1]
    simp only []
    rw [h2]
    simp only []
    rw [h3]

/-- C8 witness: a container with a readable cell but no atom dimension leaves
the frame with the new cell, an error, and the consumed flag still unset. -/
theorem read_step_partial_mutation_witness :
    read_cell noAtomFile = .ok ⟨4, 5, 6, 90, 90, 91⟩ ∧
    read_step ⟨noAtomFile, false, true⟩ 0 sampleFrame =
      (⟨noAtomFile, false, true⟩, sampleFrame.set_cell ⟨4, 5, 6, 90, 90, 91⟩,
       some (.lookupError "missing dimension atom")) ∧
    sampleFrame.cell ≠ (⟨4, 5, 6, 90, 90, 91⟩ : UnitCell) :=
  ⟨rfl,
   read_step_partial_mutation.1 ⟨noAtomFile, false, true⟩ sampleFrame ⟨4, 5, 6, 90, 90, 91⟩
     (.lookupError "missing dimension atom") rfl rfl,
   by decide⟩

/-- C9: writing a frame into a fresh container always declares and fills both
cell variables, whatever the frame's cell is; a frame whose cell is the
default empty cell is stored as explicit zero lengths and right angles, not
as absent cell variables. -/
theorem write_always_stores_cell (frame : Frame) (fmt2 : AmberRestartFormat)
    (hv : ∀ w, frame.velocities = some w → w.length = frame.positions.length)
    (h : write ⟨NcFile.empty, false, false⟩ frame = (fmt2, none)) :
    fmt2.file_.variable_exists "cell_lengths" = true ∧
    fmt2.file_.variable_exists "cell_angles" = true ∧
    (∃ lv, fmt2.file_.variableD "cell_lengths" = .ok lv ∧
           lv.ddata = [frame.cell.a, frame.cell.b, frame.cell.c]) ∧
    (∃ av, fmt2.file_.variableD "cell_angles" = .ok av ∧
           av.ddata = [frame.cell.alpha, frame.cell.beta, frame.cell.gamma]) := by
  rw [write_fresh frame hv] at h
  injection h with h1 h2
  rw [← h1]
  exact ⟨rfl, rfl, ⟨_, rfl, rfl⟩, ⟨_, rfl, rfl⟩⟩

/-- C9 witness: a frame with the default empty cell still stores explicit
cell values. -/
theorem write_always_stores_cell_witness :
    write ⟨NcFile.empty, false, false⟩ sampleFrame = (⟨writtenFile sampleFrame, true, true⟩, none) ∧
    sampleFrame.cell = UnitCell.default ∧
    ((⟨writtenFile sampleFrame, true, true⟩ : AmberRestartFormat).file_.variable_exists
        "cell_lengths" = true ∧
     (⟨writtenFile sampleFrame, true, true⟩ : AmberRestartFormat).file_.variable_exists
        "cell_angles" = true ∧
     (∃ lv, (⟨writtenFile sampleFrame, true, true⟩ : AmberRestartFormat).file_.variableD
          "cell_lengths" = .ok lv ∧
        lv.ddata = [sampleFrame.cell.a, sampleFrame.cell.b, sampleFrame.cell.c]) ∧
     (∃ av, (⟨writtenFile sampleFrame, true, true⟩ : AmberRestartFormat).file_.variableD
          "cell_angles" = .ok av ∧
        av.ddata = [sampleFrame.cell.alpha, sampleFrame.cell.beta, sampleFrame.cell.gamma])) :=
  ⟨rfl, rfl,
   write_always_stores_cell sampleFrame ⟨writtenFile sampleFrame, true, true⟩
     (fun _w h => nomatch h) rfl⟩

/-- C2: on a read, a missing cell variable or a missing or wrongly sized cell
dimension yields the default empty cell without an error; otherwise both
3-element arrays are read and each variable's own scale factor (one when
absent) multiplies its triple, and the cell is built from the six values. -/
theorem read_cell_contract :
    (∀ file : NcFile,
        (file.variable_exists "cell_lengths" = false ∨
         file.variable_exists "cell_angles" = false ∨
         file.optional_dimension "cell_spatial" 0 ≠ 3 ∨
         file.optional_dimension "cell_angular" 0 ≠ 3) →
        read_cell file = .ok UnitCell.default) ∧
    (∀ (file : NcFile) (lv av : NcVariable) (l0 l1 l2 a0 a1 a2 : ℚ),
        file.variableD "cell_lengths" = .ok lv →
        file.variableD "cell_angles" = .ok av →
        lv.get [0] [3] = .ok [l0, l1, l2] →
        av.get [0] [3] = .ok [a0, a1, a2] →
        file.optional_dimension "cell_spatial" 0 = 3 →
        file.optional_dimension "cell_angular" 0 = 3 →
        read_cell file = .ok ⟨l0 * scaleOf lv, l1 * scaleOf lv, l2 * scaleOf lv,
                              a0 * scaleOf av, a1 * scaleOf av, a2 * scaleOf av⟩) := by
  constructor
  · intro file h
    unfold read_cell
    by_cases h1 : (file.variable_exists "cell_lengths" = false ∨
                   file.variable_exists "cell_angles" = false)
    · rw [if_pos h1]
      rfl
    · rw [if_neg h1]
      have h2 : (file.optional_dimension "cell_spatial" 0 ≠ 3 ∨
                 file.optional_dimension "cell_angular" 0 ≠ 3) := by tauto
      rw [if_pos h2]
      rfl
  · intro file lv av l0 l1 l2 a0 a1 a2 hlv hav hglv hgav hd1 hd2
    have he1 := variableD_exists file "cell_lengths" lv hlv
    have he2 := variableD_exists file "cell_angles" av hav
    unfold read_cell
    rw [if_neg (by simp [he1, he2])]
    rw [if_neg (by simp [hd1, hd2])]
    rw [hlv]
    simp only [ebind_ok]
    rw [hav]
    simp only [ebind_ok]
    rw [hglv]
    simp only [ebind_ok]
    rw [hgav]
    simp only [ebind_ok]
    unfold scaleOf
    by_cases hs1 : lv.attribute_exists "scale_factor" = true <;>
    by_cases hs2 : av.attribute_exists "scale_factor" = true <;>
    simp [hs1, hs2, ebind_ok, epure_ok]

/-- C2 witness: the missing-cell case on a bare container, and the scaled case
on a container whose cell lengths carry a scale factor of 2. -/
theorem read_cell_contract_witness :
    read_cell noSpatialFile = .ok UnitCell.default ∧
    read_cell scaledCellFile =
      .ok ⟨1 * scaleOf scaledLengths, 2 * scaleOf scaledLengths, 3 * scaleOf scaledLengths,
           90 * scaleOf plainAngles, 90 * scaleOf plainAngles, 90 * scaleOf plainAngles⟩ :=
  ⟨read_cell_contract.1 noSpatialFile (Or.inl rfl),
   read_cell_contract.2 scaledCellFile scaledLengths plainAngles 1 2 3 90 90 90
     rfl rfl rfl rfl rfl rfl⟩

/-- C5: reading an [atom, spatial] variable multiplies every stored value by
the variable's scale factor (one when absent) and reshapes the flat buffer by
runs of three consecutive values, so output vector i is
(data[3i], data[3i+1], data[3i+2]) with the scale applied. -/
theorem read_array_contract (file : NcFile) (name : String) (v : NcVariable)
    (natoms : Nat) (data : List ℚ)
    (hv : file.variableD name = .ok v)
    (hn : file.dimension "atom" = .ok natoms)
    (hg : v.get [0, 0] [natoms, 3] = .ok data) :
    read_array file name =
      .ok ((List.range natoms).map (fun i =>
        ⟨data.getD (3 * i) 0 * scaleOf v, data.getD (3 * i + 1) 0 * scaleOf v,
         data.getD (3 * i + 2) 0 * scaleOf v⟩)) := by
  unfold read_array
  rw [hv]
  simp only [ebind_ok]
  rw [hn]
  simp only [ebind_ok]
  rw [hg]
  simp only [ebind_ok]
  unfold scaleOf
  by_cases hs : v.attribute_exists "scale_factor" = true <;>
  simp [hs, epure_ok, getD_map_mul, getD_opt_map_mul]

/-- C5 witness: a two-atom coordinates variable with a scale factor of 1/2. -/
theorem read_array_contract_witness :
    scaledPosFile.variableD "coordinates" = .ok scaledCoords ∧
    read_array scaledPosFile "coordinates" =
      .ok ((List.range 2).map (fun i =>
        ⟨[(1 : ℚ), 2, 3, 4, 5, 6].getD (3 * i) 0 * scaleOf scaledCoords,
         [(1 : ℚ), 2, 3, 4, 5, 6].getD (3 * i + 1) 0 * scaleOf scaledCoords,
         [(1 : ℚ), 2, 3, 4, 5, 6].getD (3 * i + 2) 0 * scaleOf scaledCoords⟩)) :=
  ⟨rfl,
   read_array_contract scaledPosFile "coordinates" scaledCoords 2 [1, 2, 3, 4, 5, 6]
     rfl rfl rfl⟩

/-- C6: writing any frame into a fresh container and reading the reopened
container back yields equal positions, an equal unit cell, and the same
optional velocities: present with equal values exactly when the written frame
carried them. -/
theorem write_read_roundtrip (frame : Frame)
    (hv : ∀ w, frame.velocities = some w → w.length = frame.positions.length) :
    ∃ (fmtW fmtW2 fmtR fmtR2 : AmberRestartFormat) (frame2 : Frame),
      openFormat NcFile.empty .WRITE .DEFAULT = .ok fmtW ∧
      write fmtW frame = (fmtW2, none) ∧
      openFormat fmtW2.file_ .READ .DEFAULT = .ok fmtR ∧
      read fmtR Frame.empty = (fmtR2, frame2, none) ∧
      frame2.positions = frame.positions ∧
      frame2.cell = frame.cell ∧
      frame2.velocities = frame.velocities := by
  obtain ⟨pos, vel, cell⟩ := frame
  refine ⟨⟨NcFile.empty, false, false⟩, ⟨writtenFile ⟨pos, vel, cell⟩, true, true⟩,
          ⟨writtenFile ⟨pos, vel, cell⟩, false, true⟩, ⟨writtenFile ⟨pos, vel, cell⟩, true, true⟩,
          ⟨pos, vel, cell⟩, rfl, write_fresh ⟨pos, vel, cell⟩ hv, ?_, ?_, rfl, rfl, rfl⟩
  · exact open_written pos.length cell (flatten3 pos) (vel.map flatten3)
  · exact read_written pos vel cell hv

/-- C6 witness: the round trip at a concrete one-atom frame with velocities
and a nontrivial cell. -/
theorem write_read_roundtrip_witness :
    ∃ (fmtW fmtW2 fmtR fmtR2 : AmberRestartFormat) (frame2 : Frame),
      openFormat NcFile.empty .WRITE .DEFAULT = .ok fmtW ∧
      write fmtW sampleVelFrame = (fmtW2, none) ∧
      openFormat fmtW2.file_ .READ .DEFAULT = .ok fmtR ∧
      read fmtR Frame.empty = (fmtR2, frame2, none) ∧
      frame2.positions = sampleVelFrame.positions ∧
      frame2.cell = sampleVelFrame.cell ∧
      frame2.velocities = sampleVelFrame.velocities :=
  write_read_roundtrip sampleVelFrame (fun w h => by cases h; rfl)

/-- C7: constructing the codec in read mode runs is_valid with no atom-count
expectation and raises a format-validation error when validation returns
false, without returning any codec state; append mode always fails; any
non-default compression option always fails, in every mode; and a read-mode
construction over a valid container yields the validated, unconsumed codec. -/
theorem open_contract :
    (∀ (file : NcFile) (comp : FileCompression),
        is_valid file none = .ok false →
        openFormat file .READ comp = .error (.formatError "invalid AMBER Restart file")) ∧
    (∀ (file : NcFile) (comp : FileCompression),
        openFormat file .APPEND comp =
          .error (.formatError "append mode is not supported with AMBER Restart format")) ∧
    (∀ (file : NcFile) (mode : FileMode) (comp : FileCompression),
        comp ≠ .DEFAULT → ∃ e, openFormat file mode comp = .error e) ∧
    (∀ file : NcFile,
        is_valid file none = .ok true →
        openFormat file .READ .DEFAULT = .ok ⟨file, false, true⟩) := by
  refine ⟨?_, ?_, ?_, ?_⟩
  · intro file comp h
    simp [openFormat, h, ebind_ok, ebind_err, ethrow, emap_err]
  · intro file comp
    rfl
  · intro file mode comp hc
    cases mode
    · rcases hiv : is_valid file none with e | b
      · exact ⟨e, by simp [openFormat, hiv, ebind_ok, ebind_err, ethrow, emap_err]⟩
      · cases b
        · exact ⟨.formatError "invalid AMBER Restart file",
                 by simp [openFormat, hiv, ebind_ok, ebind_err, ethrow, emap_err]⟩
        · exact ⟨.formatError "compression is not supported with NetCDF format",
                 by simp [openFormat, hiv, hc, ebind_ok, ebind_err, ethrow, emap_err, epure_ok]⟩
    · refine ⟨.formatError "compression is not supported with NetCDF format", ?_⟩
      simp only [openFormat, ebind_ok, ethrow, emap_err, epure_ok]
      rw [if_pos hc]
      rfl
    · exact ⟨.formatError "append mode is not supported with AMBER Restart format", rfl⟩
  · intro file h
    simp [openFormat, h, ebind_ok, ethrow, emap_err, epure_ok]

/-- C7 witness: a failing validation, an append rejection, a compression
rejection over a valid container, and a successful read-mode construction. -/
theorem open_contract_witness :
    openFormat NcFile.empty .READ .DEFAULT =
      .error (.formatError "invalid AMBER Restart file") ∧
    openFormat noSpatialFile .APPEND .GZIP =
      .error (.formatError "append mode is not supported with AMBER Restart format") ∧
    (∃ e, openFormat (writtenFile sampleFrame) .READ .GZIP = .error e) ∧
    openFormat (writtenFile sampleFrame) .READ .DEFAULT =
      .ok ⟨writtenFile sampleFrame, false, true⟩ :=
  ⟨open_contract.1 NcFile.empty .DEFAULT rfl,
   open_contract.2.1 noSpatialFile .GZIP,
   open_contract.2.2.1 (writtenFile sampleFrame) .READ .GZIP (by decide),
   open_contract.2.2.2 (writtenFile sampleFrame) rfl⟩

end Chemfiles
